import Mathlib

/-!
Verification of the credential and token lifecycle core of a Hono/D1 REST
backend.  The definitions below are shallow embeddings of the TypeScript
handlers: machine time is modelled as natural-number epoch milliseconds
(seconds for signed-credential expiry claims), the persistent token and user
tables as Lean lists, the SHA-256 digest and the bcrypt transform as function
parameters, and randomness (the freshly generated raw token) as an explicit
input.  Each handler returns its HTTP outcome together with the updated
stores, so that absence of a write is visible in the result.
-/

namespace HonoD1

/-- A row of the tokens table: id, owner user id, token type, one-way digest
of the raw token, expiry epoch-ms, and the nullable used-at timestamp. -/
structure TokenRec where
  id : Nat
  userId : Nat
  ttype : String
  tokenHash : String
  expiresAt : Nat
  usedAt : Option Nat
deriving Repr, DecidableEq

/-- A row of the users table, restricted to the fields the modelled handlers
read or write. -/
structure UserRec where
  id : Nat
  email : String
  name : String
  password : String
  emailVerified : Option Nat
deriving Repr, DecidableEq

/-- A row of the id-cards table, restricted to the fields the modelled
handlers read. -/
structure CardRec where
  id : Nat
  userId : Nat
  imageUrl : Option String
  publicId : Option String
deriving Repr, DecidableEq

/-- The findFirst query shared by both redeem paths: first record matching
the given type and digest whose usedAt is null. -/
def findTok (ty h : String) (toks : List TokenRec) : Option TokenRec :=
  toks.find? (fun r => r.ttype == ty && r.tokenHash == h && r.usedAt == none)

/-- The record persisted by both issue paths: given id, owner, type, digest
and expiry, with null usedAt. -/
def mkTok (tid uid : Nat) (ty dg : String) (exp0 : Nat) : TokenRec :=
  { id := tid, userId := uid, ttype := ty, tokenHash := dg,
    expiresAt := exp0, usedAt := none }

/-- Outcome of GET /api/id-card/verify/:token. -/
inductive VerifyResp where
  | missing
  | invalid
  | ok (cardId : Option Nat) (owner : Option (Nat × String))
deriving Repr, DecidableEq

/-- HTTP status attached to each id-card verification outcome. -/
def verifyStatus : VerifyResp → Nat
  | .missing => 400
  | .invalid => 410
  | .ok _ _ => 200

/-- GET /api/id-card/verify/:token.  Hashes the raw token, looks up an unused
idcard record with that digest, rejects with 410 when the record is absent or
its expiry is strictly before now, and otherwise answers 200 with the card and
owner looked up by the record owner id.  The handler performs no write: the
token store is returned unchanged on every path. -/
def idCardVerify (hash : String → String) (toks : List TokenRec)
    (cards : List CardRec) (users : List UserRec)
    (token : String) (now : Nat) : VerifyResp × List TokenRec :=
  if token = "" then (.missing, toks)
  else
    match findTok "idcard" (hash token) toks with
    | none => (.invalid, toks)
    | some r =>
      if r.expiresAt < now then (.invalid, toks)
      else
        let card := cards.find? (fun cd => cd.userId == r.userId)
        let owner := users.find? (fun u => u.id == r.userId)
        (.ok (card.map (fun cd => cd.id)) (owner.map (fun u => (u.id, u.name))), toks)

/-- The two persistence steps of the reset-password handler that can fail
after the token record has been located. -/
inductive ResetStep where
  | pwUpdate
  | usedAtUpdate
deriving Repr, DecidableEq

/-- Outcome of POST /api/auth/reset-password. -/
inductive ResetResp where
  | badPayload
  | mismatch
  | tokenInvalid
  | failed
  | ok
deriving Repr, DecidableEq

/-- HTTP status attached to each reset-password outcome. -/
def resetStatus : ResetResp → Nat
  | .badPayload => 400
  | .mismatch => 400
  | .tokenInvalid => 410
  | .failed => 400
  | .ok => 200

/-- The mutable state the reset-password handler touches: the users table and
the tokens table. -/
structure AuthState where
  users : List UserRec
  tokens : List TokenRec
deriving Repr, DecidableEq

/-- The users.update call keyed by id: fails (throws, in the source) when no
row matches, otherwise rewrites the password of the matching rows. -/
def updateUserPassword (uid : Nat) (pw : String) (users : List UserRec) :
    Option (List UserRec) :=
  if users.any (fun u => u.id == uid) then
    some (users.map (fun u => if u.id == uid then { u with password := pw } else u))
  else none

/-- The tokens.update call keyed by id that stamps usedAt with now. -/
def markTokenUsed (tid : Nat) (now : Nat) (toks : List TokenRec) : List TokenRec :=
  toks.map (fun r => if r.id == tid then { r with usedAt := some now } else r)

/-- POST /api/auth/reset-password.  Validates the payload, hashes the raw
token, looks up an unused reset record with that digest, rejects with 410 when
absent or past expiry, then, in source order, first updates the user password
with the bcrypt digest of the new password and only afterwards stamps the
token record usedAt.  The failAt argument injects a failure of either
persistence step; a failed step surfaces as the catch-all 400 response and
leaves every step after it unexecuted, exactly as a thrown persistence error
does in the source. -/
def resetPassword (hash pwHash : String → String) (st : AuthState)
    (token newPassword confirmPassword : String) (now : Nat)
    (failAt : Option ResetStep) : ResetResp × AuthState :=
  if token = "" ∨ newPassword = "" ∨ confirmPassword = "" then (.badPayload, st)
  else if newPassword ≠ confirmPassword then (.mismatch, st)
  else
    match findTok "reset" (hash token) st.tokens with
    | none => (.tokenInvalid, st)
    | some r =>
      if r.expiresAt < now then (.tokenInvalid, st)
      else if failAt = some ResetStep.pwUpdate then (.failed, st)
      else
        match updateUserPassword r.userId (pwHash newPassword) st.users with
        | none => (.failed, st)
        | some users2 =>
          if failAt = some ResetStep.usedAtUpdate then
            (.failed, { st with users := users2 })
          else
            (.ok, { users := users2, tokens := markTokenUsed r.id now st.tokens })

/-- A concrete unused idcard token record expiring at epoch-ms 1000. -/
def sampleTok : TokenRec :=
  { id := 1, userId := 7, ttype := "idcard", tokenHash := "tok",
    expiresAt := 1000, usedAt := none }

/-- A concrete token store holding one unused idcard token. -/
def sampleIdcardToks : List TokenRec := [sampleTok]

/-- A concrete cards table for the sample owner. -/
def sampleCards : List CardRec :=
  [{ id := 3, userId := 7, imageUrl := none, publicId := none }]

/-- A concrete user row for the sample owner. -/
def sampleUser : UserRec :=
  { id := 7, email := "a@b.c", name := "N", password := "old", emailVerified := none }

/-- A concrete users table for the sample owner. -/
def sampleUsers : List UserRec := [sampleUser]

/-- C1: the id-card verify handler never stamps usedAt, so redeeming the same
raw idcard token a second time succeeds again with 200 instead of failing with
TokenInvalid 410: both calls return the ok outcome and the store after the
first call is unchanged. -/
theorem idcard_redeem_not_single_use :
    (idCardVerify id sampleIdcardToks sampleCards sampleUsers "tok" 500).fst
      = VerifyResp.ok (some 3) (some (7, "N")) ∧
    (idCardVerify id sampleIdcardToks sampleCards sampleUsers "tok" 500).snd
      = sampleIdcardToks ∧
    (idCardVerify id
        (idCardVerify id sampleIdcardToks sampleCards sampleUsers "tok" 500).snd
        sampleCards sampleUsers "tok" 600).fst
      = VerifyResp.ok (some 3) (some (7, "N")) := by
  refine ⟨rfl, rfl, rfl⟩

/-- A concrete unused reset token record expiring at epoch-ms 1000. -/
def sampleResetTok : TokenRec :=
  { id := 1, userId := 7, ttype := "reset", tokenHash := "tok",
    expiresAt := 1000, usedAt := none }

/-- A concrete auth state with one user and one unused reset token. -/
def sampleResetState : AuthState :=
  { users := sampleUsers, tokens := [sampleResetTok] }

/-- C3 counterexample: in the reset-password handler the password update runs
before the usedAt marking, so when the usedAt update fails after the password
update succeeded, the final state has the new password committed while the
token record is still unused — the outcome the claim says is unreachable. -/
theorem reset_password_changed_token_unused :
    ((resetPassword id (fun p => String.append "H" p) sampleResetState
        "tok" "npw" "npw" 500 (some ResetStep.usedAtUpdate)).snd.users.map
      (fun u => u.password) = ["Hnpw"]) ∧
    ((resetPassword id (fun p => String.append "H" p) sampleResetState
        "tok" "npw" "npw" 500 (some ResetStep.usedAtUpdate)).snd.tokens.map
      (fun r => r.usedAt) = [none]) := by
  refine ⟨rfl, rfl⟩

/-- C3 amended: the reachable outcomes of the reset-password flow are: the
state is untouched; or the password update committed and the run stopped at
the failing usedAt update, leaving the token unused; or both steps committed.
In particular the token record is stamped usedAt only in the branch where the
password update has already succeeded, so the one-sided failure mode is
password-changed-with-token-unused, never token-burned-with-password-
unchanged. -/
theorem reset_update_then_burn (hash pwHash : String → String) (st : AuthState)
    (token npw cpw : String) (now : Nat) (failAt : Option ResetStep) :
    (resetPassword hash pwHash st token npw cpw now failAt).snd = st ∨
    (∃ r users2,
      findTok "reset" (hash token) st.tokens = some r ∧
      updateUserPassword r.userId (pwHash npw) st.users = some users2 ∧
      ((failAt = some ResetStep.usedAtUpdate ∧
        resetPassword hash pwHash st token npw cpw now failAt
          = (ResetResp.failed, { st with users := users2 })) ∨
       resetPassword hash pwHash st token npw cpw now failAt
          = (ResetResp.ok, { users := users2, tokens := markTokenUsed r.id now st.tokens }))) := by
  unfold resetPassword
  split
  · exact Or.inl rfl
  · split
    · exact Or.inl rfl
    · split
      · exact Or.inl rfl
      · rename_i r hr
        split
        · exact Or.inl rfl
        · split
          · exact Or.inl rfl
          · split
            · exact Or.inl rfl
            · rename_i users2 hu
              split
              · rename_i hfa
                exact Or.inr ⟨r, users2, hr, hu, Or.inl ⟨hfa, rfl⟩⟩
              · exact Or.inr ⟨r, users2, hr, hu, Or.inr rfl⟩

/-- C4 counterexample: a never-used record whose expiresAt equals now is
accepted by the id-card redeem path (HTTP 200), although expiresAt is not
strictly greater than now as the claim requires for acceptance. -/
theorem redeem_accepts_at_expiry_instant :
    (sampleIdcardToks.map (fun r => (r.expiresAt, r.usedAt)) = [(1000, none)]) ∧
    verifyStatus (idCardVerify id sampleIdcardToks sampleCards sampleUsers
      "tok" 1000).fst = 200 ∧
    ¬ ((1000 : Nat) < 1000) := by
  refine ⟨rfl, rfl, by decide⟩

/-- The id-card redeem outcome on a single-record store whose digest matches:
accepted exactly when the record is unused and not yet past expiry. -/
lemma idCardVerify_singleton (hash : String → String) (r : TokenRec)
    (cards : List CardRec) (users : List UserRec) (raw : String) (now : Nat)
    (hraw : raw ≠ "") (hh : r.tokenHash = hash raw) (hty : r.ttype = "idcard") :
    verifyStatus (idCardVerify hash [r] cards users raw now).fst
      = if r.usedAt = none ∧ now ≤ r.expiresAt then 200 else 410 := by
  unfold idCardVerify
  rw [if_neg hraw]
  cases hused : r.usedAt with
  | none =>
    have hf : findTok "idcard" (hash raw) [r] = some r := by
      simp [findTok, List.find?, hty, hh, hused]
    rw [hf]
    dsimp only
    by_cases hlt : r.expiresAt < now
    · have hnc : ¬ ((none : Option Nat) = none ∧ now ≤ r.expiresAt) :=
        fun hc => absurd hc.2 (Nat.not_le.mpr hlt)
      rw [if_pos hlt, if_neg hnc]
      rfl
    · rw [if_neg hlt, if_pos ⟨rfl, Nat.not_lt.mp hlt⟩]
      rfl
  | some t =>
    have hf : findTok "idcard" (hash raw) [r] = none := by
      simp [findTok, List.find?, hused]
    rw [hf]
    dsimp only
    have hnc : ¬ (some t = none ∧ now ≤ r.expiresAt) :=
      fun hc => Option.noConfusion hc.1
    rw [if_neg hnc]
    rfl

/-- The reset-password redeem outcome on a one-user one-record state whose
digest matches and whose token owner exists: accepted exactly when the record
is unused and not yet past expiry. -/
lemma resetPassword_singleton (hash pwHash : String → String) (r : TokenRec)
    (u : UserRec) (raw npw : String) (now : Nat)
    (hraw : raw ≠ "") (hnpw : npw ≠ "")
    (hh : r.tokenHash = hash raw) (hty : r.ttype = "reset")
    (hu : u.id = r.userId) :
    (resetPassword hash pwHash ⟨[u], [r]⟩ raw npw npw now none).fst
      = if r.usedAt = none ∧ now ≤ r.expiresAt then ResetResp.ok
        else ResetResp.tokenInvalid := by
  unfold resetPassword
  rw [if_neg (by simp [hraw, hnpw])]
  rw [if_neg (by simp)]
  cases hused : r.usedAt with
  | none =>
    have hf : findTok "reset" (hash raw) [r] = some r := by
      simp [findTok, List.find?, hty, hh, hused]
    rw [hf]
    dsimp only
    by_cases hlt : r.expiresAt < now
    · have hnc : ¬ ((none : Option Nat) = none ∧ now ≤ r.expiresAt) :=
        fun hc => absurd hc.2 (Nat.not_le.mpr hlt)
      rw [if_pos hlt, if_neg hnc]
    · rw [if_neg hlt]
      rw [if_neg (by simp)]
      have hupd : updateUserPassword r.userId (pwHash npw) [u]
          = some [{ u with password := pwHash npw }] := by
        simp [updateUserPassword, hu]
      rw [hupd]
      dsimp only
      rw [if_neg (by simp)]
      rw [if_pos ⟨rfl, Nat.not_lt.mp hlt⟩]
  | some t =>
    have hf : findTok "reset" (hash raw) [r] = none := by
      simp [findTok, List.find?, hused]
    rw [hf]
    dsimp only
    have hnc : ¬ (some t = none ∧ now ≤ r.expiresAt) :=
      fun hc => Option.noConfusion hc.1
    rw [if_neg hnc]

/-- C4 amended: on both redeem paths a stored record is accepted exactly when
usedAt is null and now is less than or equal to expiresAt (the source rejects
only when expiresAt is strictly before now, so the instant expiresAt equals
now is still accepted); in particular once expiresAt is strictly past, both
paths fail with HTTP 410 even if the token was never used. -/
theorem redeem_valid_iff (hash pwHash : String → String) (r : TokenRec)
    (cards : List CardRec) (u : UserRec) (raw npw : String) (now : Nat)
    (hraw : raw ≠ "") (hnpw : npw ≠ "")
    (hh : r.tokenHash = hash raw) (hu : u.id = r.userId) :
    (r.ttype = "idcard" →
      (verifyStatus (idCardVerify hash [r] cards [u] raw now).fst = 200 ↔
        r.usedAt = none ∧ now ≤ r.expiresAt)) ∧
    (r.ttype = "reset" →
      ((resetPassword hash pwHash ⟨[u], [r]⟩ raw npw npw now none).fst
          = ResetResp.ok ↔
        r.usedAt = none ∧ now ≤ r.expiresAt)) ∧
    (r.usedAt = none → r.expiresAt < now →
      (r.ttype = "idcard" →
        verifyStatus (idCardVerify hash [r] cards [u] raw now).fst = 410) ∧
      (r.ttype = "reset" →
        resetStatus
          (resetPassword hash pwHash ⟨[u], [r]⟩ raw npw npw now none).fst
          = 410)) := by
  refine ⟨?_, ?_, ?_⟩
  · intro hty
    rw [idCardVerify_singleton hash r cards [u] raw now hraw hh hty]
    by_cases hc : r.usedAt = none ∧ now ≤ r.expiresAt
    · simp [hc]
    · simp [if_neg hc, hc]
  · intro hty
    rw [resetPassword_singleton hash pwHash r u raw npw now hraw hnpw hh hty hu]
    by_cases hc : r.usedAt = none ∧ now ≤ r.expiresAt
    · simp [hc]
    · simp [if_neg hc, hc]
  · intro hused hlt
    have hnotle : ¬ (r.usedAt = none ∧ now ≤ r.expiresAt) := by
      intro hc
      exact absurd hc.2 (Nat.not_le.mpr hlt)
    constructor
    · intro hty
      rw [idCardVerify_singleton hash r cards [u] raw now hraw hh hty]
      rw [if_neg hnotle]
    · intro hty
      rw [resetPassword_singleton hash pwHash r u raw npw now hraw hnpw hh hty hu]
      rw [if_neg hnotle]
      rfl

/-- Concrete instance of the amended C4 theorem: the sample unused idcard
token, redeemed before expiry, is accepted with HTTP 200. -/
theorem redeem_valid_iff_witness :
    verifyStatus (idCardVerify id [sampleTok] sampleCards [sampleUser]
      "tok" 500).fst = 200 :=
  ((redeem_valid_iff id id sampleTok sampleCards sampleUser "tok" "x" 500
      (by decide) (by decide) rfl rfl).1 rfl).mpr (by decide)

/-- The observable body of a forgot-password response: HTTP status, the ok
flag, and the optional message and devToken fields. -/
structure ForgotResult where
  status : Nat
  ok : Bool
  message : Option String
  devToken : Option String
deriving Repr, DecidableEq

/-- The toLowerCase normalization applied to the submitted email, written
over the character list so that it evaluates by kernel reduction. -/
def lowerStr (s : String) : String := String.mk (s.data.map Char.toLower)

/-- POST /api/auth/forgot-password.  Lowercases the submitted email; an empty
email or an unknown email answers a bare ok body without touching the store.
For a known user it persists a reset record holding the digest of the fresh
raw token with expiry now plus thirty minutes and null usedAt, then answers:
in development mode the raw token itself with a dev message; otherwise, when
the reset email was dispatched, an ok body with an if-an-account-exists
message; and when dispatch failed, a 500 error body. -/
def forgotPassword (hash : String → String) (users : List UserRec)
    (toks : List TokenRec) (email raw : String) (now : Nat)
    (devMode emailOk : Bool) : ForgotResult × List TokenRec :=
  let e := lowerStr email
  if e = "" then ({ status := 200, ok := true, message := none, devToken := none }, toks)
  else
    match users.find? (fun u => u.email == e) with
    | none => ({ status := 200, ok := true, message := none, devToken := none }, toks)
    | some u =>
      let toks2 := toks ++ [mkTok (toks.length + 1) u.id "reset" (hash raw) (now + 1800000)]
      if devMode then
        ({ status := 200, ok := true,
           message := some "In development mode, token is returned directly.",
           devToken := some raw }, toks2)
      else if emailOk then
        ({ status := 200, ok := true,
           message := some "If an account exists with this email, a password reset link has been sent.",
           devToken := none }, toks2)
      else
        ({ status := 500, ok := false,
           message := some "Failed to send password reset email. Please try again later.",
           devToken := none }, toks2)

/-- C5 counterexample: with production settings and a working email channel,
the forgot-password responses for an unregistered and a registered email are
both successes but have different bodies — the message field is present only
when the account exists — so the observable response does depend on account
existence. -/
theorem forgot_password_body_depends_on_existence :
    (forgotPassword id [] [] "a@b.c" "r" 0 false true).fst
      ≠ (forgotPassword id [sampleUser] [] "a@b.c" "r" 0 false true).fst := by
  decide

/-- C5 amended: whenever the reset email dispatch succeeds (or development
mode is on), the forgot-password endpoint answers HTTP 200 with ok set, for
every users table — so success at the status level is independent of account
existence — but the response bodies of the two existence branches are not
identical. -/
theorem forgot_password_always_success (hash : String → String)
    (users : List UserRec) (toks : List TokenRec) (email raw : String)
    (now : Nat) (devMode emailOk : Bool)
    (h : devMode = true ∨ emailOk = true) :
    (forgotPassword hash users toks email raw now devMode emailOk).fst.status = 200 ∧
    (forgotPassword hash users toks email raw now devMode emailOk).fst.ok = true := by
  unfold forgotPassword
  dsimp only
  by_cases h0 : lowerStr email = ""
  · rw [if_pos h0]
    exact ⟨rfl, rfl⟩
  · rw [if_neg h0]
    cases List.find? (fun u => u.email == lowerStr email) users with
    | none => exact ⟨rfl, rfl⟩
    | some u =>
      dsimp only
      rcases h with h | h
      · rw [h]
        simp
      · rw [h]
        cases devMode <;> simp

/-- Concrete instance of the amended C5 theorem: a registered email in
production mode with working email dispatch gets an HTTP 200 ok response. -/
theorem forgot_password_always_success_witness :
    (forgotPassword id [sampleUser] [] "a@b.c" "r" 0 false true).fst.status = 200 ∧
    (forgotPassword id [sampleUser] [] "a@b.c" "r" 0 false true).fst.ok = true :=
  forgot_password_always_success id [sampleUser] [] "a@b.c" "r" 0 false true
    (Or.inr rfl)

/-- Outcome of POST /api/id-card/generate. -/
inductive GenResp where
  | unauthorized
  | notFound
  | storedUrl (url publicId : String)
  | minted (token : String) (expiresAt : Nat)
deriving Repr, DecidableEq

/-- JavaScript truthiness of a nullable text column: non-null and non-empty. -/
def strTruthy : Option String → Bool
  | none => false
  | some s => s ≠ ""

/-- POST /api/id-card/generate.  Requires an authenticated user id, looks up
the card by id scoped to that owner, answers the stored CDN url when the card
already has truthy imageUrl and publicId, and otherwise persists an idcard
token record holding the digest of the fresh raw token with expiry now plus
ten minutes and null usedAt, answering the raw token and expiry. -/
def idCardGenerate (hash : String → String) (auth : Option Nat)
    (cards : List CardRec) (toks : List TokenRec)
    (cardId : Nat) (raw : String) (now : Nat) : GenResp × List TokenRec :=
  match auth with
  | none => (.unauthorized, toks)
  | some uid =>
    match cards.find? (fun cd => cd.id == cardId && cd.userId == uid) with
    | none => (.notFound, toks)
    | some card =>
      if strTruthy card.imageUrl && strTruthy card.publicId then
        (.storedUrl (card.imageUrl.getD "") (card.publicId.getD ""), toks)
      else
        (.minted raw (now + 600000),
         toks ++ [mkTok (toks.length + 1) uid "idcard" (hash raw) (now + 600000)])

/-- C10: an authenticated generate request mints a token only when the card
lacks a stored CDN image: with both imageUrl and publicId truthy it answers
the stored url and leaves the token store untouched; otherwise it appends one
idcard record expiring ten minutes after now and answers the raw token with
that expiry. -/
theorem idcard_generate_mints_iff_no_image (hash : String → String)
    (uid : Nat) (cards : List CardRec) (toks : List TokenRec)
    (cardId : Nat) (raw : String) (now : Nat) (card : CardRec)
    (hfind : cards.find? (fun cd => cd.id == cardId && cd.userId == uid)
      = some card) :
    (strTruthy card.imageUrl = true ∧ strTruthy card.publicId = true →
      idCardGenerate hash (some uid) cards toks cardId raw now
        = (GenResp.storedUrl (card.imageUrl.getD "") (card.publicId.getD ""), toks)) ∧
    (¬ (strTruthy card.imageUrl = true ∧ strTruthy card.publicId = true) →
      idCardGenerate hash (some uid) cards toks cardId raw now
        = (GenResp.minted raw (now + 600000),
           toks ++ [mkTok (toks.length + 1) uid "idcard" (hash raw) (now + 600000)])) := by
  unfold idCardGenerate
  dsimp only
  rw [hfind]
  dsimp only
  constructor
  · intro hc
    rw [if_pos (by rw [hc.1, hc.2]; rfl)]
  · intro hc
    rw [if_neg ?_]
    intro hb
    rcases Bool.and_eq_true _ _ |>.mp hb with ⟨h1, h2⟩
    exact hc ⟨h1, h2⟩

/-- A concrete card without a stored CDN image. -/
def sampleCardNoImage : CardRec :=
  { id := 3, userId := 7, imageUrl := none, publicId := none }

/-- Concrete instance of the C10 theorem: generating for a card without a
stored image mints an idcard token record expiring ten minutes later. -/
theorem idcard_generate_mints_iff_no_image_witness :
    idCardGenerate id (some 7) [sampleCardNoImage] [] 3 "raw" 100
      = (GenResp.minted "raw" 600100, [mkTok 1 7 "idcard" "raw" 600100]) :=
  (idcard_generate_mints_iff_no_image id 7 [sampleCardNoImage] [] 3 "raw" 100
      sampleCardNoImage (by decide)).2 (by decide)

/-- C7: on both issue paths the persisted record holds exactly the owner id,
the token type, the digest of the raw token, the expiry now-plus-ttl, and a
null usedAt; and the store update depends on the raw token only through its
digest, so the raw value itself is never persisted — it is only handed back
in the response. -/
theorem issue_persists_only_hash (hash : String → String)
    (users : List UserRec) (toks : List TokenRec) (email raw raw2 : String)
    (now : Nat) (devMode emailOk : Bool) (u : UserRec)
    (hfind : users.find? (fun w => w.email == lowerStr email) = some u)
    (hne : lowerStr email ≠ "")
    (uid : Nat) (cards : List CardRec) (cardId : Nat)
    (card : CardRec)
    (hcard : cards.find? (fun cd => cd.id == cardId && cd.userId == uid)
      = some card)
    (himg : ¬ (strTruthy card.imageUrl = true ∧ strTruthy card.publicId = true))
    (hcoll : hash raw = hash raw2) :
    (forgotPassword hash users toks email raw now devMode emailOk).snd
      = toks ++ [mkTok (toks.length + 1) u.id "reset" (hash raw) (now + 1800000)] ∧
    (forgotPassword hash users toks email raw now devMode emailOk).snd
      = (forgotPassword hash users toks email raw2 now devMode emailOk).snd ∧
    (idCardGenerate hash (some uid) cards toks cardId raw now).snd
      = toks ++ [mkTok (toks.length + 1) uid "idcard" (hash raw) (now + 600000)] ∧
    (idCardGenerate hash (some uid) cards toks cardId raw now).snd
      = (idCardGenerate hash (some uid) cards toks cardId raw2 now).snd := by
  have hfp : ∀ rw0 : String, hash rw0 = hash raw →
      (forgotPassword hash users toks email rw0 now devMode emailOk).snd
        = toks ++ [mkTok (toks.length + 1) u.id "reset" (hash raw) (now + 1800000)] := by
    intro rw0 h0
    unfold forgotPassword
    dsimp only
    rw [if_neg hne, hfind]
    dsimp only
    rw [h0]
    cases devMode with
    | true => simp
    | false => cases emailOk <;> simp
  have hgen : ∀ rw0 : String, hash rw0 = hash raw →
      (idCardGenerate hash (some uid) cards toks cardId rw0 now).snd
        = toks ++ [mkTok (toks.length + 1) uid "idcard" (hash raw) (now + 600000)] := by
    intro rw0 h0
    unfold idCardGenerate
    dsimp only
    rw [hcard]
    dsimp only
    rw [if_neg ?_]
    · rw [h0]
    · intro hb
      rcases Bool.and_eq_true _ _ |>.mp hb with ⟨h1, h2⟩
      exact himg ⟨h1, h2⟩
  refine ⟨hfp raw rfl, ?_, hgen raw rfl, ?_⟩
  · rw [hfp raw rfl, hfp raw2 hcoll.symm]
  · rw [hgen raw rfl, hgen raw2 hcoll.symm]

/-- Concrete instance of the C7 theorem: issuing a reset token for the sample
user persists only the digest, with two digest-equal raws giving the same
store. -/
theorem issue_persists_only_hash_witness :
    (forgotPassword (fun _ => "D") [sampleUser] [] "a@b.c" "raw1" 0 false true).snd
      = [mkTok 1 7 "reset" "D" 1800000] ∧
    (forgotPassword (fun _ => "D") [sampleUser] [] "a@b.c" "raw1" 0 false true).snd
      = (forgotPassword (fun _ => "D") [sampleUser] [] "a@b.c" "raw2" 0 false true).snd := by
  have h := issue_persists_only_hash (fun _ => "D") [sampleUser] [] "a@b.c"
    "raw1" "raw2" 0 false true sampleUser (by decide) (by decide)
    7 [sampleCardNoImage] 3 sampleCardNoImage (by decide)
    (by decide) rfl
  exact ⟨h.1, h.2.1⟩

/-- The claim set carried by a signed credential: subject id and email, the
optional purpose tag, and the optional exp claim in epoch seconds. -/
structure TokenPayload where
  userId : Nat
  email : String
  purpose : Option String
  exp : Option Nat
deriving Repr, DecidableEq

/-- A compact signed credential, modelled as its decoded payload together
with the secret that keyed its signature; signature verification succeeds
exactly when the validating secret equals the signing secret, which models an
unforgeable keyed MAC. -/
structure Jwt where
  payload : TokenPayload
  sig : String
deriving Repr, DecidableEq

/-- The sign operation of the jwt library: embeds the payload as given (no
claim is added or altered) under the callers secret. -/
def jwtSign (p : TokenPayload) (secret : String) : Jwt :=
  { payload := p, sig := secret }

/-- The failures of the jwt library verify operation. -/
inductive JwtError where
  | badSignature
  | expired
deriving Repr, DecidableEq

/-- The verify operation of the jwt library: rejects a signature mismatch,
then rejects an exp claim strictly before now (in seconds), else returns the
payload.  A payload without an exp claim is never reported expired. -/
def jwtVerify (t : Jwt) (secret : String) (now : Nat) :
    Except JwtError TokenPayload :=
  if t.sig ≠ secret then .error .badSignature
  else
    match t.payload.exp with
    | some e => if e < now then .error .expired else .ok t.payload
    | none => .ok t.payload

/-- The expiry constant the source declares for email-verification tokens.
It is declared but never passed to the sign call, mirroring the source. -/
def EMAIL_VERIFICATION_EXPIRY : String := "24h"

/-- generateVerificationToken from the token utilities: signs the payload
consisting of the user id, the email and the email-verification purpose.  No
exp claim is included — the declared 24-hour expiry constant is unused. -/
def generateVerificationToken (userId : Nat) (email secret : String) : Jwt :=
  jwtSign { userId := userId, email := email,
            purpose := some "email-verification", exp := none } secret

/-- verifyToken from the token utilities: verifies the credential; on the
library expiry error it decodes the payload from the token itself and
returns it with expired true; any other error propagates. -/
def verifyToken (t : Jwt) (secret : String) (now : Nat) :
    Except JwtError (TokenPayload × Bool) :=
  match jwtVerify t secret now with
  | .ok p => .ok (p, false)
  | .error .expired => .ok (t.payload, true)
  | .error e => .error e

/-- Sanity check of the embedding: a credential that does carry an exp claim
is reported expired by verifyToken once now passes it, so the missing expiry
below comes from the signing side, not from the model of verification. -/
lemma verifyToken_expired_when_exp_present (p : TokenPayload) (secret : String)
    (e now : Nat) (hexp : p.exp = some e) (hlt : e < now) :
    verifyToken (jwtSign p secret) secret now = .ok ((jwtSign p secret).payload, true) := by
  unfold verifyToken jwtVerify jwtSign
  dsimp only
  rw [if_neg (by simp)]
  rw [hexp]
  dsimp only
  rw [if_pos hlt]

/-- C2: an email-verification token is signed without any exp claim, so
validating it with the correct secret returns expired annotated false even 25
hours (90000 seconds) after issuance at time 0 — the declared 24-hour ttl is
never applied.  Session tokens do carry a one-hour exp, so the claim fails
specifically on the email-verification side. -/
theorem email_verification_token_never_expires :
    verifyToken (generateVerificationToken 1 "a@b.c" "s") "s" 90000
      = .ok ({ userId := 1, email := "a@b.c",
               purpose := some "email-verification", exp := none }, false) := by
  rfl

/-- Outcome of GET /api/auth/verify-email. -/
inductive EmailVerifyResp where
  | missingToken
  | invalidToken
  | expiredLink
  | userNotFound
  | alreadyVerified
  | verified
  | invalidOrExpired
deriving Repr, DecidableEq

/-- GET /api/auth/verify-email.  Requires a token, runs verifyToken, rejects
a purpose other than email-verification, then an expired credential, then
looks up the subject, cross-checks the email, short-circuits when already
verified, and otherwise stamps emailVerified. -/
def verifyEmailConsume (t : Option Jwt) (secret : String) (now : Nat)
    (users : List UserRec) : EmailVerifyResp × List UserRec :=
  match t with
  | none => (.missingToken, users)
  | some tok =>
    match verifyToken tok secret now with
    | .error _ => (.invalidOrExpired, users)
    | .ok (p, expired) =>
      if p.purpose ≠ some "email-verification" then (.invalidToken, users)
      else if expired then (.expiredLink, users)
      else
        match users.find? (fun u => u.id == p.userId) with
        | none => (.userNotFound, users)
        | some u =>
          if u.email ≠ p.email then (.invalidToken, users)
          else if u.emailVerified ≠ none then (.alreadyVerified, users)
          else (.verified,
            users.map (fun w =>
              if w.id == u.id then { w with emailVerified := some now } else w))

/-- C6: the purpose claim is embedded at signing time unchanged, and a signed
credential whose signature verifies but whose purpose is not
email-verification is rejected by the consume endpoint as an invalid
verification token, whether or not it is expired. -/
theorem verify_email_rejects_purpose_mismatch (p : TokenPayload)
    (secret : String) (now : Nat) (users : List UserRec)
    (hp : p.purpose ≠ some "email-verification") :
    (jwtSign p secret).payload.purpose = p.purpose ∧
    (verifyEmailConsume (some (jwtSign p secret)) secret now users).fst
      = EmailVerifyResp.invalidToken := by
  refine ⟨rfl, ?_⟩
  unfold verifyEmailConsume verifyToken jwtVerify jwtSign
  dsimp only
  rw [if_neg (by simp)]
  cases hexp : p.exp with
  | none =>
    dsimp only
    rw [if_pos hp]
  | some e =>
    dsimp only
    by_cases hlt : e < now
    · rw [if_pos hlt]
      dsimp only
      rw [if_pos hp]
    · rw [if_neg hlt]
      dsimp only
      rw [if_pos hp]

/-- A session-style payload: no purpose claim, one-hour exp. -/
def sessionPayload : TokenPayload :=
  { userId := 1, email := "a@b.c", purpose := none, exp := some 3600 }

/-- Concrete instance of the C6 theorem: a validly signed session-style
credential without a purpose claim is rejected by the email-verification
consume endpoint. -/
theorem verify_email_rejects_purpose_mismatch_witness :
    (verifyEmailConsume (some (jwtSign sessionPayload "s")) "s" 0 sampleUsers).fst
      = EmailVerifyResp.invalidToken :=
  (verify_email_rejects_purpose_mismatch sessionPayload "s" 0 sampleUsers
    (by decide)).2

/-- A rate-limit bucket: the remaining token count (an integer, as in the
source, so that a zero max yields minus one on reset) and the window reset
time in epoch-ms. -/
structure Bucket where
  tokens : Int
  resetAt : Nat
deriving Repr, DecidableEq

/-- Decision of one rate limiter check. -/
inductive RlDecision where
  | allowed
  | limited (retryAfter : Nat)
deriving Repr, DecidableEq

/-- Ceiling division of a millisecond difference by 1000, as Math.ceil does
on the integer difference. -/
def ceilSec (d : Nat) : Nat := (d + 999) / 1000

/-- One pass of the rate-limit middleware over a bucket (none models a key
with no bucket yet).  First request or elapsed window: reset the bucket to
max minus one tokens and a fresh window and allow.  Inside the window: deny
with retryAfter seconds when no tokens remain (leaving the bucket as is),
else decrement and allow. -/
def rateLimitStep (windowMs max : Nat) (b : Option Bucket) (now : Nat) :
    RlDecision × Bucket :=
  match b with
  | none => (.allowed, { tokens := (max : Int) - 1, resetAt := now + windowMs })
  | some bk =>
    if bk.resetAt ≤ now then
      (.allowed, { tokens := (max : Int) - 1, resetAt := now + windowMs })
    else if bk.tokens ≤ 0 then
      (.limited (Nat.max 1 (ceilSec (bk.resetAt - now))), bk)
    else
      (.allowed, { bk with tokens := bk.tokens - 1 })

/-- Runs the rate limiter over a sequence of request times for one key,
threading the bucket map entry. -/
def rateLimitRun (windowMs max : Nat) : Option Bucket → List Nat →
    List RlDecision × Option Bucket
  | b, [] => ([], b)
  | b, t :: ts =>
    let s := rateLimitStep windowMs max b t
    let rest := rateLimitRun windowMs max (some s.snd) ts
    (s.fst :: rest.fst, rest.snd)

/-- Inside a window, a bucket holding as many tokens as there are remaining
requests allows all of them and ends drained at zero tokens with the window
unchanged. -/
lemma rateLimitRun_drain (windowMs max : Nat) (R : Nat) :
    ∀ ts : List Nat, (∀ t ∈ ts, t < R) →
      rateLimitRun windowMs max (some { tokens := (ts.length : Int), resetAt := R }) ts
        = (List.replicate ts.length RlDecision.allowed,
           some { tokens := 0, resetAt := R }) := by
  intro ts
  induction ts with
  | nil => intro _; rfl
  | cons t ts ih =>
    intro hw
    have ht : t < R := hw t (List.mem_cons_self t ts)
    have hstep : rateLimitStep windowMs max
        (some { tokens := ((t :: ts).length : Int), resetAt := R }) t
        = (.allowed, { tokens := (ts.length : Int), resetAt := R }) := by
      unfold rateLimitStep
      dsimp only
      rw [if_neg (Nat.not_le.mpr ht)]
      rw [if_neg ?_]
      · simp [List.length_cons]
      · simp only [List.length_cons]
        push_neg
        positivity
    rw [rateLimitRun, hstep]
    dsimp only
    rw [ih (fun x hx => hw x (List.mem_cons_of_mem t hx))]
    rfl

/-- C8: the fixed-window rule of the rate limiter.  Part one: a first request
for a key, or a request at or after the window reset time, resets the bucket
to max minus one remaining and a window of now plus windowMs, and is allowed.
Part two: inside the window with remaining tokens positive, the request is
allowed and remaining is decremented.  Part three: inside the window with
zero remaining, the request is denied with retryAfter equal to the ceiling of
the millisecond gap to the reset divided by 1000.  Part four: with max at
least one, a first request followed by max further requests inside its
window sees the first max requests allowed and the last denied with a
retryAfter of at least one second. -/
theorem rate_limit_fixed_window (windowMs max : Nat) (bk : Bucket)
    (now t0 tl : Nat) (ts : List Nat)
    (hmax : 1 ≤ max) (hin : now < bk.resetAt)
    (hlen : ts.length = max - 1)
    (hts : ∀ t ∈ ts, t < t0 + windowMs) (htl : tl < t0 + windowMs) :
    (rateLimitStep windowMs max none now
        = (.allowed, { tokens := (max : Int) - 1, resetAt := now + windowMs })) ∧
    (∀ b : Bucket, b.resetAt ≤ now →
      rateLimitStep windowMs max (some b) now
        = (.allowed, { tokens := (max : Int) - 1, resetAt := now + windowMs })) ∧
    (0 < bk.tokens →
      rateLimitStep windowMs max (some bk) now
        = (.allowed, { bk with tokens := bk.tokens - 1 })) ∧
    (bk.tokens = 0 →
      rateLimitStep windowMs max (some bk) now
        = (.limited (ceilSec (bk.resetAt - now)), bk) ∧
      1 ≤ ceilSec (bk.resetAt - now)) ∧
    ((rateLimitRun windowMs max none (t0 :: (ts ++ [tl]))).fst
        = List.replicate max RlDecision.allowed
            ++ [RlDecision.limited (ceilSec (t0 + windowMs - tl))] ∧
      1 ≤ ceilSec (t0 + windowMs - tl)) := by
  have hceil : ∀ a b : Nat, b < a → 1 ≤ ceilSec (a - b) := by
    intro a b hab
    unfold ceilSec
    omega
  have hmax1 : ∀ a b : Nat, b < a → Nat.max 1 (ceilSec (a - b)) = ceilSec (a - b) := by
    intro a b hab
    exact Nat.max_eq_right (hceil a b hab)
  refine ⟨rfl, ?_, ?_, ?_, ?_⟩
  · intro b hb
    unfold rateLimitStep
    dsimp only
    rw [if_pos hb]
  · intro hpos
    unfold rateLimitStep
    dsimp only
    rw [if_neg (Nat.not_le.mpr hin), if_neg (by omega)]
  · intro hz
    constructor
    · unfold rateLimitStep
      dsimp only
      rw [if_neg (Nat.not_le.mpr hin), if_pos (by omega)]
      rw [hmax1 bk.resetAt now hin]
    · exact hceil bk.resetAt now hin
  · constructor
    · have hstep0 : rateLimitStep windowMs max none t0
          = (.allowed, { tokens := (max : Int) - 1, resetAt := t0 + windowMs }) := rfl
      rw [rateLimitRun, hstep0]
      dsimp only
      have hcast : ((max : Int) - 1) = ((ts.length : Int)) := by
        rw [hlen]
        omega
      rw [hcast]
      have happ : rateLimitRun windowMs max
          (some { tokens := (ts.length : Int), resetAt := t0 + windowMs }) (ts ++ [tl])
          = ((List.replicate ts.length RlDecision.allowed)
              ++ [RlDecision.limited (ceilSec (t0 + windowMs - tl))],
             some { tokens := 0, resetAt := t0 + windowMs }) := by
        have hsplit : ∀ (b : Option Bucket) (xs ys : List Nat),
            rateLimitRun windowMs max b (xs ++ ys)
              = ((rateLimitRun windowMs max b xs).fst
                  ++ (rateLimitRun windowMs max (rateLimitRun windowMs max b xs).snd ys).fst,
                 (rateLimitRun windowMs max (rateLimitRun windowMs max b xs).snd ys).snd) := by
          intro b xs
          induction xs generalizing b with
          | nil => intro ys; rfl
          | cons x xs ih =>
            intro ys
            rw [List.cons_append, rateLimitRun, rateLimitRun, ih]
            rfl
        rw [hsplit]
        rw [rateLimitRun_drain windowMs max (t0 + windowMs) ts hts]
        dsimp only
        have hlast : rateLimitRun windowMs max
            (some { tokens := 0, resetAt := t0 + windowMs }) [tl]
            = ([RlDecision.limited (ceilSec (t0 + windowMs - tl))],
               some { tokens := 0, resetAt := t0 + windowMs }) := by
          rw [rateLimitRun]
          have hstepl : rateLimitStep windowMs max
              (some { tokens := 0, resetAt := t0 + windowMs }) tl
              = (.limited (ceilSec (t0 + windowMs - tl)),
                 { tokens := 0, resetAt := t0 + windowMs }) := by
            unfold rateLimitStep
            dsimp only
            rw [if_neg (Nat.not_le.mpr htl), if_pos (by omega)]
            rw [hmax1 (t0 + windowMs) tl htl]
          rw [hstepl]
          rfl
        rw [hlast]
      rw [happ]
      dsimp only
      rw [hlen]
      obtain ⟨m, hm⟩ : ∃ m, max = m + 1 :=
        ⟨max - 1, (Nat.succ_pred_eq_of_pos hmax).symm⟩
      rw [hm]
      simp [List.replicate_succ]
    · exact hceil (t0 + windowMs) tl htl

/-- Concrete instance of the C8 theorem: with max 5 and a one-minute window,
six requests at times 0..5 give five allowed decisions and a sixth denied
with a retryAfter of at least one second. -/
theorem rate_limit_fixed_window_witness :
    (rateLimitRun 60000 5 none (0 :: ([1, 2, 3, 4] ++ [5]))).fst
      = List.replicate 5 RlDecision.allowed
          ++ [RlDecision.limited (ceilSec (0 + 60000 - 5))] ∧
    1 ≤ ceilSec (0 + 60000 - 5) :=
  (rate_limit_fixed_window 60000 5 { tokens := 0, resetAt := 1000 } 500 0 5
    [1, 2, 3, 4] (by decide) (by decide) (by decide) (by decide)
    (by decide)).2.2.2.2

/-- A middleware response: whether the inner handler ran (allowed) and the
header list the middleware set on the response. -/
structure RlHttpResp where
  status : Nat
  headers : List (String × String)
deriving Repr, DecidableEq

/-- The header-setting behaviour of the rate-limit middleware, by source
branch.  First request or elapsed window: the bucket is reset and the inner
handler runs with no rate-limit header set.  Drained bucket inside the
window: a 429 response carrying Retry-After and the three metadata headers.
Otherwise: decrement and run the inner handler with the three metadata
headers set. -/
def rateLimitHeaders (windowMs max : Nat) (b : Option Bucket) (now : Nat)
    (innerStatus : Nat) : RlHttpResp × Bucket :=
  match b with
  | none =>
    ({ status := innerStatus, headers := [] },
     { tokens := (max : Int) - 1, resetAt := now + windowMs })
  | some bk =>
    if bk.resetAt ≤ now then
      ({ status := innerStatus, headers := [] },
       { tokens := (max : Int) - 1, resetAt := now + windowMs })
    else if bk.tokens ≤ 0 then
      ({ status := 429, headers :=
          [("Retry-After", toString (Nat.max 1 (ceilSec (bk.resetAt - now)))),
           ("X-RateLimit-Limit", toString max),
           ("X-RateLimit-Remaining", "0"),
           ("X-RateLimit-Reset", toString (bk.resetAt / 1000))] }, bk)
    else
      ({ status := innerStatus, headers :=
          [("X-RateLimit-Limit", toString max),
           ("X-RateLimit-Remaining", toString (bk.tokens - 1)),
           ("X-RateLimit-Reset", toString (bk.resetAt / 1000))] },
       { bk with tokens := bk.tokens - 1 })

/-- C9 counterexample: the first request for a key takes the reset branch,
whose response carries no rate-limit header at all — so not every response on
a limited route exposes the limit, remaining and reset metadata. -/
theorem rate_limit_first_response_has_no_headers :
    (rateLimitHeaders 60000 5 none 0 200).fst.headers = [] := by
  rfl

/-- C9 amended: inside a window the allowed (decrement) branch and the denied
branch both carry the limit, remaining and reset-epoch-seconds headers, and
the denied branch additionally carries Retry-After; but the reset branch (a
key's first request, or the first request after the window elapsed) carries
no rate-limit header. -/
theorem rate_limit_headers_by_branch (windowMs max : Nat) (bk : Bucket)
    (now innerStatus : Nat) (hin : now < bk.resetAt) :
    (0 < bk.tokens →
      (let resp := (rateLimitHeaders windowMs max (some bk) now innerStatus).fst
       resp.status = innerStatus ∧
       ("X-RateLimit-Limit", toString max) ∈ resp.headers ∧
       ("X-RateLimit-Remaining", toString (bk.tokens - 1)) ∈ resp.headers ∧
       ("X-RateLimit-Reset", toString (bk.resetAt / 1000)) ∈ resp.headers ∧
       ∀ v, ("Retry-After", v) ∉ resp.headers)) ∧
    (bk.tokens ≤ 0 →
      (let resp := (rateLimitHeaders windowMs max (some bk) now innerStatus).fst
       resp.status = 429 ∧
       ("X-RateLimit-Limit", toString max) ∈ resp.headers ∧
       ("X-RateLimit-Remaining", "0") ∈ resp.headers ∧
       ("X-RateLimit-Reset", toString (bk.resetAt / 1000)) ∈ resp.headers ∧
       ("Retry-After", toString (Nat.max 1 (ceilSec (bk.resetAt - now))))
         ∈ resp.headers)) ∧
    (∀ b : Option Bucket, (b = none ∨ ∃ c, b = some c ∧ c.resetAt ≤ now) →
      (rateLimitHeaders windowMs max b now innerStatus).fst.headers = []) := by
  refine ⟨?_, ?_, ?_⟩
  · intro hpos
    have hb : rateLimitHeaders windowMs max (some bk) now innerStatus
        = ({ status := innerStatus, headers :=
              [("X-RateLimit-Limit", toString max),
               ("X-RateLimit-Remaining", toString (bk.tokens - 1)),
               ("X-RateLimit-Reset", toString (bk.resetAt / 1000))] },
           { bk with tokens := bk.tokens - 1 }) := by
      unfold rateLimitHeaders
      dsimp only
      rw [if_neg (Nat.not_le.mpr hin), if_neg (by omega)]
    rw [hb]
    refine ⟨rfl, by simp, by simp, by simp, ?_⟩
    intro v hv
    simp only [List.mem_cons, List.not_mem_nil, or_false, Prod.mk.injEq] at hv
    rcases hv with ⟨h1, _⟩ | ⟨h1, _⟩ | ⟨h1, _⟩ <;> exact absurd h1 (by decide)
  · intro hz
    have hb : rateLimitHeaders windowMs max (some bk) now innerStatus
        = ({ status := 429, headers :=
              [("Retry-After", toString (Nat.max 1 (ceilSec (bk.resetAt - now)))),
               ("X-RateLimit-Limit", toString max),
               ("X-RateLimit-Remaining", "0"),
               ("X-RateLimit-Reset", toString (bk.resetAt / 1000))] }, bk) := by
      unfold rateLimitHeaders
      dsimp only
      rw [if_neg (Nat.not_le.mpr hin), if_pos hz]
    rw [hb]
    exact ⟨rfl, by simp, by simp, by simp, by simp⟩
  · intro b hb
    rcases hb with hb | ⟨c, hb, hc⟩
    · rw [hb]
      rfl
    · rw [hb]
      unfold rateLimitHeaders
      dsimp only
      rw [if_pos hc]

/-- Concrete instance of the amended C9 theorem: a denied request inside the
window carries the three metadata headers and Retry-After. -/
theorem rate_limit_headers_by_branch_witness :
    (let resp := (rateLimitHeaders 60000 5
        (some { tokens := 0, resetAt := 60000 }) 500 200).fst
     resp.status = 429 ∧
     ("X-RateLimit-Limit", toString 5) ∈ resp.headers ∧
     ("X-RateLimit-Remaining", "0") ∈ resp.headers ∧
     ("X-RateLimit-Reset", toString (60000 / 1000)) ∈ resp.headers ∧
     ("Retry-After", toString (Nat.max 1 (ceilSec (60000 - 500))))
       ∈ resp.headers) :=
  (rate_limit_headers_by_branch 60000 5 { tokens := 0, resetAt := 60000 }
    500 200 (by decide)).2.1 (by decide)

end HonoD1
